import Mathlib

/-!
Greeting selection in `chapter-02/recipe-03/cxx-example/hello-world.cpp`.

The translation unit selects one of six greetings by conditional compilation
and prints it, followed by a line that carries the compiler name injected by
the build.  The build configuration (the state of the five flag macros and the
value of the string literal `COMPILER_NAME`) is the only input of the program;
it is made an explicit argument here.
-/

namespace HelloWorld

/-! ## Build configuration -/

/-- State of the five flag macros when `hello-world.cpp` is preprocessed.
`none` is a macro that is not defined; `some v` is a macro that is defined and
whose replacement text is the integer constant `v`, of any size, as it is
written (`-DNAME` gives `some 1`, `-DNAME=0` gives `some 0`).  A definition
whose replacement text is not an integer constant expression makes `#elif NAME`
ill-formed, so that no program is built; such definitions are not represented. -/
structure Flags where
  IS_INTEL_CXX_COMPILER : Option Int
  IS_GNU_CXX_COMPILER : Option Int
  IS_PGI_CXX_COMPILER : Option Int
  IS_XL_CXX_COMPILER : Option Int
  IS_AppleClang_CXX_COMPILER : Option Int
  deriving DecidableEq, Repr

/-- Controlling condition of `#ifdef NAME`: the name is defined as a
preprocessor symbol, whatever its value. -/
def ifdef (m : Option Int) : Bool :=
  m.isSome

/-- Value of the controlling expression `NAME` of `#elif NAME`: a defined name
is replaced by its replacement text, a name that is not defined is replaced by
`0`.  The preprocessor computes in the 64 bits of `intmax_t` and `uintmax_t`: a
constant that does not fit is cut to its low 64 bits (the compiler only warns),
so that a multiple of `2 ^ 64` counts as `0`. -/
def ppValue (m : Option Int) : Int :=
  match m with
  | some v => v % 2 ^ 64
  | none => 0

/-- Controlling condition of `#elif NAME`: the expression is non-zero. -/
def elif (m : Option Int) : Bool :=
  ppValue m != 0

/-! ## Library operations used by the source -/

/-- The character sequence a `const char*` denotes when it points at the first
element of the array of a string literal: the characters before the first NUL.
Both `std::string(const char*)` and `operator<<(std::ostream&, const char*)`
read their argument this way. -/
def c_str (literal : String) : String :=
  ⟨literal.data.takeWhile (fun c => c != '\x00')⟩

/-- Constructor `std::string(const char*)`. -/
def std_string (literal : String) : String :=
  c_str literal

/-- Manipulator `std::endl` on an output stream whose content so far is `os`:
writes a newline character (and flushes). -/
def endl (os : String) : String :=
  os ++ "\n"

/-- Modelled from the spec: the value of `EXIT_SUCCESS`, which `<cstdlib>`
declares and the source file does not; the spec gives the success status as 0. -/
def EXIT_SUCCESS : Int := 0

/-! ## The program -/

/-- Function `std::string say_hello()`: the group of the
`#ifdef … #elif … #else … #endif` chain that the configuration keeps. -/
def say_hello (f : Flags) : String :=
  if ifdef f.IS_INTEL_CXX_COMPILER then
    std_string "Hello Intel compiler!"
  else if elif f.IS_GNU_CXX_COMPILER then
    std_string "Hello GNU compiler!"
  else if elif f.IS_PGI_CXX_COMPILER then
    std_string "Hello PGI compiler!"
  else if elif f.IS_XL_CXX_COMPILER then
    std_string "Hello XL compiler!"
  else if elif f.IS_AppleClang_CXX_COMPILER then
    std_string "Hello AppleClang compiler!"
  else
    std_string "Hello unknown compiler - have we met before?"

/-- What a run of the program leaves behind: everything written to standard
output and the value returned by `main`. -/
structure Run where
  stdout : String
  status : Int
  deriving DecidableEq, Repr

/-- Function `int main()`.  `COMPILER_NAME` is the content of the string literal
the build defines the macro of that name to; the compiler pastes it after the
literal `"compiler name is "`. -/
def main (f : Flags) (COMPILER_NAME : String) : Run :=
  let cout : String := ""
  let cout := endl (cout ++ say_hello f)
  let cout := endl (cout ++ c_str ("compiler name is " ++ COMPILER_NAME))
  ⟨cout, EXIT_SUCCESS⟩

/-! ## Lines of an output -/

/-- Splits a character sequence into lines: a newline character ends the line
that is being read; characters after the last newline form a last line. -/
def splitLines : List Char → List (List Char)
  | [] => []
  | c :: cs =>
    if c = '\n' then [] :: splitLines cs
    else
      match splitLines cs with
      | [] => [[c]]
      | l :: ls => (c :: l) :: ls

/-- The lines of an output, in the order they were written. -/
def lines (out : String) : List String :=
  (splitLines out.data).map String.mk

/-! ## Branches of the conditional chain -/

/-- The six groups of the `#ifdef … #endif` chain in `say_hello`. -/
inductive Branch where
  | Intel
  | GNU
  | PGI
  | XL
  | AppleClang
  | unknown
  deriving DecidableEq, Repr

/-- The group of the chain in `say_hello` that the preprocessor keeps: the
first one whose controlling condition holds, the `#else` group when none does. -/
def selected (f : Flags) : Branch :=
  if ifdef f.IS_INTEL_CXX_COMPILER then Branch.Intel
  else if elif f.IS_GNU_CXX_COMPILER then Branch.GNU
  else if elif f.IS_PGI_CXX_COMPILER then Branch.PGI
  else if elif f.IS_XL_CXX_COMPILER then Branch.XL
  else if elif f.IS_AppleClang_CXX_COMPILER then Branch.AppleClang
  else Branch.unknown

/-- The string literal in the `return` statement of each group. -/
def greeting : Branch → String
  | Branch.Intel => "Hello Intel compiler!"
  | Branch.GNU => "Hello GNU compiler!"
  | Branch.PGI => "Hello PGI compiler!"
  | Branch.XL => "Hello XL compiler!"
  | Branch.AppleClang => "Hello AppleClang compiler!"
  | Branch.unknown => "Hello unknown compiler - have we met before?"

/-- The six texts that occur in a `return` statement of `say_hello`, in source
order. -/
def greetings : List String :=
  ["Hello Intel compiler!", "Hello GNU compiler!", "Hello PGI compiler!",
   "Hello XL compiler!", "Hello AppleClang compiler!",
   "Hello unknown compiler - have we met before?"]

/-! ## Auxiliary facts -/

theorem std_string_greeting (b : Branch) : std_string (greeting b) = greeting b := by
  cases b <;> decide

theorem say_hello_eq_greeting (f : Flags) : say_hello f = greeting (selected f) := by
  unfold say_hello selected
  split_ifs <;> decide

theorem greeting_injective (b b2 : Branch) (h : greeting b = greeting b2) : b = b2 := by
  revert h
  cases b <;> cases b2 <;> decide

theorem greeting_no_newline (b : Branch) : '\n' ∉ (greeting b).data := by
  cases b <;> decide

theorem greeting_mem_greetings (b : Branch) : greeting b ∈ greetings := by
  cases b <;> decide

theorem elif_none : elif none = false := by
  decide

theorem elif_zero : elif (some 0) = false := by
  decide

theorem elif_of_fits (v : Int) (hv : v ≠ 0) (hlo : -2 ^ 63 ≤ v) (hhi : v < 2 ^ 64) :
    elif (some v) = true := by
  have e63 : (2 : Int) ^ 63 = 9223372036854775808 := by norm_num
  have e64 : (2 : Int) ^ 64 = 18446744073709551616 := by norm_num
  rw [e63] at hlo
  rw [e64] at hhi
  have hne : v % 18446744073709551616 ≠ 0 := by omega
  simpa [elif, ppValue, e64] using hne

theorem elif_of_unset (m : Option Int) (h : m = none ∨ m = some 0) : elif m = false := by
  rcases h with rfl | rfl
  · exact elif_none
  · exact elif_zero

theorem c_str_of_no_nul (s : String) (h : '\x00' ∉ s.data) : c_str s = s := by
  unfold c_str
  have hs : s.data.takeWhile (fun c => c != '\x00') = s.data := by
    rw [List.takeWhile_eq_self_iff]
    intro c hc
    have hne : c ≠ '\x00' := fun e => h (e ▸ hc)
    simpa using hne
  rw [hs]

theorem splitLines_line (l rest : List Char) (h : '\n' ∉ l) :
    splitLines (l ++ '\n' :: rest) = l :: splitLines rest := by
  induction l with
  | nil => simp [splitLines]
  | cons c cs ih =>
    have hc : c ≠ '\n' := fun e => h (by simp [e])
    have hcs : '\n' ∉ cs := fun e => h (List.mem_cons_of_mem _ e)
    simp [splitLines, hc, ih hcs]

theorem main_stdout_data (f : Flags) (X : String) :
    (main f X).stdout.data =
      (say_hello f).data ++ '\n' :: ((c_str ("compiler name is " ++ X)).data ++ ['\n']) := by
  simp [main, endl]

theorem lines_main (f : Flags) (X : String) :
    lines (main f X).stdout =
      say_hello f :: lines (endl (c_str ("compiler name is " ++ X))) := by
  unfold lines
  rw [main_stdout_data, splitLines_line]
  · simp [endl]
  · rw [say_hello_eq_greeting]
    exact greeting_no_newline _

theorem lines_endl (s : String) (h : '\n' ∉ s.data) : lines (endl s) = [s] := by
  unfold lines endl
  have e : (s ++ "\n").data = s.data ++ '\n' :: [] := by simp
  rw [e, splitLines_line _ _ h]
  simp [splitLines]

theorem second_text (X : String) (h0 : '\x00' ∉ X.data) (hn : '\n' ∉ X.data) :
    lines (endl (c_str ("compiler name is " ++ X))) = ["compiler name is " ++ X] := by
  have a0 : '\x00' ∉ ("compiler name is " ++ X).data := by
    simp only [String.data_append, List.mem_append, not_or]
    exact ⟨by decide, h0⟩
  have an : '\n' ∉ ("compiler name is " ++ X).data := by
    simp only [String.data_append, List.mem_append, not_or]
    exact ⟨by decide, hn⟩
  rw [c_str_of_no_nul _ a0, lines_endl _ an]

theorem head_lines_main (f : Flags) (X : String) :
    (lines (main f X).stdout).head? = some (say_hello f) := by
  rw [lines_main]
  rfl

theorem splitLines_first (l rest : List Char) :
    ∃ ls, splitLines (l ++ '\n' :: rest) = l.takeWhile (fun c => c != '\n') :: ls := by
  induction l with
  | nil => exact ⟨splitLines rest, by simp [splitLines]⟩
  | cons c cs ih =>
    obtain ⟨ls, hls⟩ := ih
    by_cases hc : c = '\n'
    · subst hc
      exact ⟨splitLines (cs ++ '\n' :: rest), by simp [splitLines]⟩
    · exact ⟨ls, by simp [splitLines, hc, hls]⟩

theorem second_line_main (f : Flags) (X : String) :
    (lines (main f X).stdout)[1]? =
      some ⟨(c_str ("compiler name is " ++ X)).data.takeWhile (fun c => c != '\n')⟩ := by
  rw [lines_main, List.getElem?_cons_succ]
  unfold lines endl
  have e : (c_str ("compiler name is " ++ X) ++ "\n").data
      = (c_str ("compiler name is " ++ X)).data ++ '\n' :: [] := by simp
  obtain ⟨ls, hls⟩ := splitLines_first (c_str ("compiler name is " ++ X)).data []
  rw [e, hls]
  simp

theorem second_line_exact_iff (f : Flags) (X : String) :
    (lines (main f X).stdout)[1]? = some ("compiler name is " ++ X) ↔
      '\x00' ∉ X.data ∧ '\n' ∉ X.data := by
  constructor
  · intro h
    rw [second_line_main, Option.some.injEq, String.ext_iff] at h
    simp only [c_str] at h
    have hlen := congrArg List.length h
    have p1 := List.takeWhile_prefix (fun c => c != '\n')
      (l := List.takeWhile (fun c => c != '\x00') ("compiler name is " ++ X).data)
    have p2 := List.takeWhile_prefix (fun c => c != '\x00')
      (l := ("compiler name is " ++ X).data)
    have e2 : List.takeWhile (fun c => c != '\x00') ("compiler name is " ++ X).data
        = ("compiler name is " ++ X).data :=
      p2.eq_of_length_le (by rw [← hlen]; exact p1.length_le)
    rw [e2] at h
    rw [List.takeWhile_eq_self_iff] at h e2
    refine ⟨fun hm => ?_, fun hm => ?_⟩
    · have := e2 '\x00' (by simp [hm])
      simp at this
    · have := h '\n' (by simp [hm])
      simp at this
  · rintro ⟨h0, hn⟩
    rw [lines_main, second_text X h0 hn]
    rfl

theorem stdout_main (f : Flags) (X : String) (h0 : '\x00' ∉ X.data) :
    (main f X).stdout = say_hello f ++ "\n" ++ ("compiler name is " ++ X) ++ "\n" := by
  have a0 : '\x00' ∉ ("compiler name is " ++ X).data := by
    simp only [String.data_append, List.mem_append, not_or]
    exact ⟨by decide, h0⟩
  apply String.ext
  rw [main_stdout_data, c_str_of_no_nul _ a0]
  simp

/-! ## The greeting -/

/-- C1: for each of the five flags, when that flag is set (defined as a non-zero
integer that fits the 64 bits the preprocessor computes in, as `-DNAME` defines
it, to `1`) and the other four are not defined, `say_hello` returns
`Hello <Name> compiler!` with the name of that flag (Intel, GNU, PGI, XL,
AppleClang), and this text is the first line `main` prints, whatever the
compiler name is. -/
theorem say_hello_single_flag (v : Int) (hv : v ≠ 0)
    (hlo : -2 ^ 63 ≤ v) (hhi : v < 2 ^ 64) (X : String) :
    (say_hello ⟨some v, none, none, none, none⟩ = "Hello Intel compiler!" ∧
      (lines (main ⟨some v, none, none, none, none⟩ X).stdout).head?
        = some "Hello Intel compiler!") ∧
    (say_hello ⟨none, some v, none, none, none⟩ = "Hello GNU compiler!" ∧
      (lines (main ⟨none, some v, none, none, none⟩ X).stdout).head?
        = some "Hello GNU compiler!") ∧
    (say_hello ⟨none, none, some v, none, none⟩ = "Hello PGI compiler!" ∧
      (lines (main ⟨none, none, some v, none, none⟩ X).stdout).head?
        = some "Hello PGI compiler!") ∧
    (say_hello ⟨none, none, none, some v, none⟩ = "Hello XL compiler!" ∧
      (lines (main ⟨none, none, none, some v, none⟩ X).stdout).head?
        = some "Hello XL compiler!") ∧
    (say_hello ⟨none, none, none, none, some v⟩ = "Hello AppleClang compiler!" ∧
      (lines (main ⟨none, none, none, none, some v⟩ X).stdout).head?
        = some "Hello AppleClang compiler!") := by
  have hset := elif_of_fits v hv hlo hhi
  simp only [head_lines_main, Option.some.injEq, and_self]
  simp [say_hello_eq_greeting, selected, ifdef, elif_none, hset, greeting]

/-- Witness of C1: the value `1` that `-DNAME` gives a flag, with the compiler
name `GNU`. -/
theorem say_hello_single_flag_witness :
    ((1 : Int) ≠ 0 ∧ -2 ^ 63 ≤ (1 : Int) ∧ (1 : Int) < 2 ^ 64) ∧
      say_hello ⟨some 1, none, none, none, none⟩ = "Hello Intel compiler!" ∧
      say_hello ⟨none, some 1, none, none, none⟩ = "Hello GNU compiler!" ∧
      (lines (main ⟨none, some 1, none, none, none⟩ "GNU").stdout).head?
        = some "Hello GNU compiler!" ∧
      say_hello ⟨none, none, some 1, none, none⟩ = "Hello PGI compiler!" ∧
      say_hello ⟨none, none, none, some 1, none⟩ = "Hello XL compiler!" ∧
      say_hello ⟨none, none, none, none, some 1⟩ = "Hello AppleClang compiler!" :=
  have h := say_hello_single_flag 1 (by decide) (by decide) (by decide) "GNU"
  ⟨by decide, h.1.1, h.2.1.1, h.2.1.2, h.2.2.1.1, h.2.2.2.1.1, h.2.2.2.2.1⟩

/-- C2: when none of the five flags is defined, `say_hello` returns
`Hello unknown compiler - have we met before?`, `main` prints that text as its
first line, and the run still ends with the success status. -/
theorem say_hello_no_flag (X : String) :
    say_hello ⟨none, none, none, none, none⟩
        = "Hello unknown compiler - have we met before?" ∧
      (lines (main ⟨none, none, none, none, none⟩ X).stdout).head?
        = some "Hello unknown compiler - have we met before?" ∧
      (main ⟨none, none, none, none, none⟩ X).status = 0 := by
  refine ⟨by decide, ?_, rfl⟩
  rw [head_lines_main]
  decide

/-- C5: for every state of the five flags, several of them set at once
included, `say_hello` returns a member of the list of the six greetings, it is
equal to exactly one entry of that list, and it is not the concatenation of two
greetings. -/
theorem say_hello_mem_greetings (f : Flags) :
    say_hello f ∈ greetings ∧
      greetings.count (say_hello f) = 1 ∧
      ∀ g₁ ∈ greetings, ∀ g₂ ∈ greetings, say_hello f ≠ g₁ ++ g₂ := by
  rw [say_hello_eq_greeting]
  generalize selected f = b
  cases b <;> decide

/-- C7: when several flags are set, the greeting is that of the first set flag
in the order Intel, GNU, PGI, XL, AppleClang.  The first set flag is defined as
a non-zero integer `v` that fits the 64 bits the preprocessor computes in; the
flags before it are not set (Intel: not defined; `g0`, `p0`, `x0`: not defined
or defined as `0`); the flags after it (`g`, `p`, `x`, `a`) are in any state
whatever and have no effect on the result. -/
theorem say_hello_precedence (v : Int) (hv : v ≠ 0)
    (hlo : -2 ^ 63 ≤ v) (hhi : v < 2 ^ 64) (g p x a g0 p0 x0 : Option Int)
    (hg0 : g0 = none ∨ g0 = some 0) (hp0 : p0 = none ∨ p0 = some 0)
    (hx0 : x0 = none ∨ x0 = some 0) :
    say_hello ⟨some v, g, p, x, a⟩ = "Hello Intel compiler!" ∧
    say_hello ⟨none, some v, p, x, a⟩ = "Hello GNU compiler!" ∧
    say_hello ⟨none, g0, some v, x, a⟩ = "Hello PGI compiler!" ∧
    say_hello ⟨none, g0, p0, some v, a⟩ = "Hello XL compiler!" ∧
    say_hello ⟨none, g0, p0, x0, some v⟩ = "Hello AppleClang compiler!" := by
  have hset := elif_of_fits v hv hlo hhi
  have hg := elif_of_unset g0 hg0
  have hp := elif_of_unset p0 hp0
  have hx := elif_of_unset x0 hx0
  simp [say_hello_eq_greeting, selected, ifdef, hset, hg, hp, hx, greeting]

/-- Witness of C7: with every later flag defined as `1` too, the first set flag
decides; Intel and GNU both set gives the Intel greeting, GNU and PGI both set
the GNU greeting, and so on down the order. -/
theorem say_hello_precedence_witness :
    ((1 : Int) ≠ 0 ∧ -2 ^ 63 ≤ (1 : Int) ∧ (1 : Int) < 2 ^ 64) ∧
      say_hello ⟨some 1, some 1, some 1, some 1, some 1⟩ = "Hello Intel compiler!" ∧
      say_hello ⟨none, some 1, some 1, some 1, some 1⟩ = "Hello GNU compiler!" ∧
      say_hello ⟨none, some 0, some 1, some 1, some 1⟩ = "Hello PGI compiler!" ∧
      say_hello ⟨none, some 0, none, some 1, some 1⟩ = "Hello XL compiler!" ∧
      say_hello ⟨none, some 0, none, none, some 1⟩ = "Hello AppleClang compiler!" :=
  ⟨by decide,
    say_hello_precedence 1 (by decide) (by decide) (by decide)
      (some 1) (some 1) (some 1) (some 1) (some 0) none none
      (Or.inr rfl) (Or.inl rfl) (Or.inl rfl)⟩

/-- C8: the Intel flag is tested with `#ifdef`, the other four by their value.
With `IS_INTEL_CXX_COMPILER` defined as `0`, `say_hello` returns the Intel
greeting (whatever the other flags are); with the Intel flag not defined and one
of the GNU, PGI, XL, AppleClang flags defined as `0`, the rest not defined,
`say_hello` returns the unknown-compiler greeting. -/
theorem say_hello_zero_valued (g p x a : Option Int) :
    (ifdef (some 0) = true ∧ elif (some 0) = false) ∧
    say_hello ⟨some 0, g, p, x, a⟩ = "Hello Intel compiler!" ∧
    say_hello ⟨none, some 0, none, none, none⟩
      = "Hello unknown compiler - have we met before?" ∧
    say_hello ⟨none, none, some 0, none, none⟩
      = "Hello unknown compiler - have we met before?" ∧
    say_hello ⟨none, none, none, some 0, none⟩
      = "Hello unknown compiler - have we met before?" ∧
    say_hello ⟨none, none, none, none, some 0⟩
      = "Hello unknown compiler - have we met before?" := by
  refine ⟨by decide, ?_, by decide, by decide, by decide, by decide⟩
  simp [say_hello_eq_greeting, selected, ifdef, greeting]

/-- C9: the six greetings are pairwise distinct, `say_hello` returns the
greeting of the selected group, and so two configurations that select different
groups never print the same first line: the first line determines the group. -/
theorem first_line_determines_branch :
    greetings.Nodup ∧
    (∀ b b2 : Branch, greeting b = greeting b2 → b = b2) ∧
    (∀ f : Flags, say_hello f = greeting (selected f)) ∧
    (∀ (f f2 : Flags) (X X2 : String), selected f ≠ selected f2 →
      (lines (main f X).stdout).head? ≠ (lines (main f2 X2).stdout).head?) := by
  refine ⟨by decide, greeting_injective, say_hello_eq_greeting, ?_⟩
  intro f f2 X X2 hne heq
  rw [head_lines_main, head_lines_main, say_hello_eq_greeting, say_hello_eq_greeting] at heq
  exact hne (greeting_injective _ _ (Option.some.inj heq))

/-! ## The run of `main` -/

/-- C6: for every state of the five flags and every compiler name, `main`
returns `EXIT_SUCCESS`, which is 0. -/
theorem main_status (f : Flags) (X : String) :
    (main f X).status = EXIT_SUCCESS ∧ (main f X).status = 0 :=
  ⟨rfl, rfl⟩

/-- C3, as amended: for every state of the five flags and every compiler name
`X`, the second line `main` prints is exactly `compiler name is ` followed by
`X` if and only if `X` contains neither a NUL nor a newline character; the second
line is the same for every state of the flags. -/
theorem main_second_line (f : Flags) (X : String) :
    ((lines (main f X).stdout)[1]? = some ("compiler name is " ++ X) ↔
      '\x00' ∉ X.data ∧ '\n' ∉ X.data) ∧
    ∀ f2 : Flags, (lines (main f2 X).stdout)[1]? = (lines (main f X).stdout)[1]? :=
  ⟨second_line_exact_iff f X, fun f2 => by rw [second_line_main, second_line_main]⟩

/-- Witness of C3: the GNU flag and the compiler name `GNU`. -/
theorem main_second_line_witness :
    ('\x00' ∉ "GNU".data ∧ '\n' ∉ "GNU".data) ∧
      (lines (main ⟨none, some 1, none, none, none⟩ "GNU").stdout)[1]?
        = some "compiler name is GNU" :=
  ⟨by decide,
    (main_second_line ⟨none, some 1, none, none, none⟩ "GNU").1.2 (by decide)⟩

/-- C3 as stated fails: a compiler name with a NUL character is printed only up
to that character, and one with a newline character is continued on a third
line, so in both cases the second line is not `compiler name is ` followed by
the whole name. -/
theorem main_second_line_counterexample :
    ((lines (main ⟨none, some 1, none, none, none⟩ "G\x00U").stdout)[1]?
        = some "compiler name is G" ∧
      (lines (main ⟨none, some 1, none, none, none⟩ "G\x00U").stdout)[1]?
        ≠ some ("compiler name is " ++ "G\x00U")) ∧
    ((lines (main ⟨none, some 1, none, none, none⟩ "G\nU").stdout)[1]?
        = some "compiler name is G" ∧
      (lines (main ⟨none, some 1, none, none, none⟩ "G\nU").stdout)[1]?
        ≠ some ("compiler name is " ++ "G\nU")) := by
  decide

/-- C4, as amended: for every state of the five flags and every compiler name
`X` that contains neither a NUL nor a newline character, standard output is
exactly the greeting, a newline, `compiler name is ` followed by `X`, and a
newline: two lines, in this order, and nothing else. -/
theorem main_stdout (f : Flags) (X : String)
    (h0 : '\x00' ∉ X.data) (hn : '\n' ∉ X.data) :
    (main f X).stdout = say_hello f ++ "\n" ++ ("compiler name is " ++ X) ++ "\n" ∧
      lines (main f X).stdout = [say_hello f, "compiler name is " ++ X] :=
  ⟨stdout_main f X h0, by rw [lines_main, second_text X h0 hn]⟩

/-- Witness of C4: the GNU flag and the compiler name `GNU` give
`Hello GNU compiler!` and then `compiler name is GNU`. -/
theorem main_stdout_witness :
    ('\x00' ∉ "GNU".data ∧ '\n' ∉ "GNU".data) ∧
      (main ⟨none, some 1, none, none, none⟩ "GNU").stdout
        = "Hello GNU compiler!\ncompiler name is GNU\n" ∧
      lines (main ⟨none, some 1, none, none, none⟩ "GNU").stdout
        = ["Hello GNU compiler!", "compiler name is GNU"] :=
  ⟨by decide,
    main_stdout ⟨none, some 1, none, none, none⟩ "GNU" (by decide) (by decide)⟩

/-- C4 as stated fails: with a newline character in the compiler name, standard
output has three lines; with a NUL character in it, the second line stops before
that character, so the output is not the greeting followed by
`compiler name is ` and the name. -/
theorem main_stdout_counterexample :
    (lines (main ⟨none, some 1, none, none, none⟩ "Clang\n15").stdout
        = ["Hello GNU compiler!", "compiler name is Clang", "15"] ∧
      (lines (main ⟨none, some 1, none, none, none⟩ "Clang\n15").stdout).length ≠ 2) ∧
    ((main ⟨none, some 1, none, none, none⟩ "Clang\x0015").stdout
        = "Hello GNU compiler!\ncompiler name is Clang\n" ∧
      (main ⟨none, some 1, none, none, none⟩ "Clang\x0015").stdout
        ≠ "Hello GNU compiler!\n" ++ ("compiler name is " ++ "Clang\x0015") ++ "\n") := by
  decide

end HelloWorld
